import Mathlib

/-
Verification of the bubble-packing and coverage-statistics engine of the
boundary-coverage repository (src/bubble_generation.py, src/analysis.py).

The geometry library (shapely) is modelled as an abstract capability
`GeoKernel`: a type of planar geometries together with the operations the
algorithm consumes (buffer/erosion, emptiness, containment, perimeter
interpolation, area, boolean operations, minimum rotated rectangle corners,
minimum bounding circle).  The algorithms themselves are translated
statement by statement from the Python source; Python floats become `ℚ`,
Python ints become `ℤ`/`ℕ`, Python `//` on ints becomes `Int.fdiv`, and the
`while` loop of `generate_inclusion_bubbles` is run on a fuel that provably
dominates the loop's iteration count (the radius strictly decreases every
iteration, see `genLoop_done`), so the fuel never runs out.
-/

/-- Python `int(x)` on a float: truncation toward zero. -/
def pyInt (q : ℚ) : ℤ :=
  if 0 ≤ q then ⌊q⌋ else ⌈q⌉

/-- Python `x // y` on floats: floor division, returning a float. -/
def pyFloorDiv (a b : ℚ) : ℚ :=
  (⌊a / b⌋ : ℤ)

/-- `np.arange(start, stop, step)` for a positive step: the points
`start + k * step` for `k < ⌈(stop - start) / step⌉`. -/
def pyArange (start stop step : ℚ) : List ℚ :=
  if 0 < step then
    (List.range (⌈(stop - start) / step⌉).toNat).map (fun k => start + (k : ℚ) * step)
  else []

/-- Abstract interface to the 2D geometry library (shapely) used by the
bubble algorithms: a type of geometries and the operations the source code
calls on them.  Points are coordinate pairs in `ℚ × ℚ`. -/
structure GeoKernel (G : Type) where
  /-- `g.buffer(d)`: dilate (or, for negative `d`, erode) a geometry. -/
  buffer : G → ℚ → G
  /-- `shapely.is_empty(g)`. -/
  isEmpty : G → Bool
  /-- `isinstance(g, MultiPolygon)`. -/
  isMultiPolygon : G → Bool
  /-- `isinstance(g, LineString)`. -/
  isLineString : G → Bool
  /-- `g.geoms`: the parts of a multi-part geometry. -/
  geoms : G → List G
  /-- `g.exterior.length`: perimeter of the exterior ring. -/
  exteriorLength : G → ℚ
  /-- `g.exterior.interpolate(d)`: the point at distance `d` along the
  exterior ring. -/
  interpolate : G → ℚ → ℚ × ℚ
  /-- `Point(p).buffer(r)`: the circle of radius `r` centred at `p`. -/
  pointBuffer : ℚ × ℚ → ℚ → G
  /-- `a.contains(b)`. -/
  contains : G → G → Bool
  /-- The first three vertices of
  `minimum_rotated_rectangle(g).exterior.xy`; consecutive vertices of the
  rectangle, so the two segments they span are its two distinct edges. -/
  mrrCorners : G → (ℚ × ℚ) × (ℚ × ℚ) × (ℚ × ℚ)
  /-- `Point(p).distance(Point(q))`. -/
  distance : ℚ × ℚ → ℚ × ℚ → ℚ
  /-- `g.area`. -/
  area : G → ℚ
  /-- `a.intersection(b)`. -/
  inter : G → G → G
  /-- `a.difference(b)`. -/
  diff : G → G → G
  /-- `shapely.union_all(gs)`. -/
  unionAll : List G → G
  /-- `shapely.minimum_bounding_circle(g)`. -/
  minimumBoundingCircle : G → G
  /-- `g.centroid`. -/
  centroid : G → ℚ × ℚ
  /-- `g.bounds = (minx, miny, maxx, maxy)`. -/
  bounds : G → ℚ × ℚ × ℚ × ℚ

/-- `BUBBLE_LIMIT = 200` (src/bubble_generation.py line 5). -/
def BUBBLE_LIMIT : ℕ := 200

/-- `calculate_radius_upper_bound(boundary)` (src/bubble_generation.py
lines 8-26): width of the minimum rotated rectangle's shorter edge, then
`int((width // 2000) * 1000)`. -/
def calculate_radius_upper_bound {G : Type} (K : GeoKernel G) (boundary : G) : ℤ :=
  let c := K.mrrCorners boundary
  let e1 := K.distance c.1 c.2.1
  let e2 := K.distance c.2.1 c.2.2
  let width := min e1 e2
  pyInt (pyFloorDiv width 2000 * 1000)

/-- `calculate_step(polygons, radius, bubble_length)`
(src/bubble_generation.py lines 29-51). -/
def calculate_step {G : Type} (K : GeoKernel G) (polygons : List G) (radius : ℤ)
    (bubble_length : ℕ) : ℚ :=
  let total_polygon_length := (polygons.map K.exteriorLength).sum
  let iteration_bubble_count := total_polygon_length / (radius : ℚ)
  if radius = 1000 ∨ (BUBBLE_LIMIT : ℚ) < (bubble_length : ℚ) + iteration_bubble_count then
    total_polygon_length / ((BUBBLE_LIMIT : ℚ) - (bubble_length : ℚ))
  else (radius : ℚ)

/-- The radius update at the end of each `while` iteration
(src/bubble_generation.py lines 91-94): `(radius // 1500) * 1000` once at
least one bubble exists, `radius - 1000` otherwise. -/
def nextRadius (hasBubbles : Bool) (radius : ℤ) : ℤ :=
  if hasBubbles then (Int.fdiv radius 1500) * 1000 else radius - 1000

/-- One radius tier of `generate_inclusion_bubbles`
(src/bubble_generation.py lines 72-89): erode, sample the skeleton
perimeter, keep the circles contained in the padded boundary.  Returns the
extended bubble list, the extended data list, and the list of
`bubble_length` arguments passed to `calculate_step` during the tier. -/
def runTier {G : Type} (K : GeoKernel G) (padded : G) (radius : ℤ) (bubbles : List G)
    (data : List (ℚ × ℚ × ℤ)) : List G × List (ℚ × ℚ × ℤ) × List ℕ :=
  let island := K.buffer padded (-((radius : ℚ) + 30))
  if K.isEmpty island then (bubbles, data, [])
  else
    let polygons := if K.isMultiPolygon island then K.geoms island else [island]
    let step := calculate_step K polygons radius bubbles.length
    let pts := (polygons.map (fun poly =>
      (pyArange 0 (K.exteriorLength poly) step).map (K.interpolate poly))).flatten
    let accepted := pts.filter (fun pt => K.contains padded (K.pointBuffer pt (radius : ℚ)))
    (bubbles ++ accepted.map (fun pt => K.pointBuffer pt (radius : ℚ)),
     data ++ accepted.map (fun pt => (pt.1, pt.2, pyInt ((radius : ℚ) / 1000))),
     [bubbles.length])

/-- Final state of the `while` loop of `generate_inclusion_bubbles`,
together with the trace data used in the proofs: the `bubble_length`
arguments of every `calculate_step` call and the number of loop
iterations executed. -/
structure GenState (G : Type) where
  radius : ℤ
  bubbles : List G
  data : List (ℚ × ℚ × ℤ)
  stepCalls : List ℕ
  iters : ℕ

/-- The `while radius > 0 and len(inclusion_bubbles) < BUBBLE_LIMIT` loop of
`generate_inclusion_bubbles` (src/bubble_generation.py lines 71-94), run on
a fuel; `genLoop_done` shows the fuel used by `generationTrace` always
suffices for the loop to reach its natural exit condition. -/
def genLoop {G : Type} (K : GeoKernel G) (padded : G) :
    ℕ → ℤ → List G → List (ℚ × ℚ × ℤ) → GenState G
  | 0, radius, bubbles, data => ⟨radius, bubbles, data, [], 0⟩
  | fuel + 1, radius, bubbles, data =>
    if 0 < radius ∧ bubbles.length < BUBBLE_LIMIT then
      let t := runTier K padded radius bubbles data
      let radius2 := nextRadius (decide (0 < t.1.length)) radius
      let s := genLoop K padded fuel radius2 t.1 t.2.1
      ⟨s.radius, s.bubbles, s.data, t.2.2 ++ s.stepCalls, s.iters + 1⟩
    else ⟨radius, bubbles, data, [], 0⟩

/-- `boundary.buffer(padding) if padding else boundary`
(src/bubble_generation.py line 69). -/
def paddedOf {G : Type} (K : GeoKernel G) (boundary : G) (padding : ℚ) : G :=
  if padding ≠ 0 then K.buffer boundary padding else boundary

/-- The full run of the `generate_inclusion_bubbles` loop, starting from
empty bubble lists with the given initial radius. -/
def generationTrace {G : Type} (K : GeoKernel G) (boundary : G) (initial_radius : ℤ)
    (padding : ℚ) : GenState G :=
  genLoop K (paddedOf K boundary padding) (initial_radius.toNat + 1) initial_radius [] []

/-- `generate_inclusion_bubbles(boundary, initial_radius, padding=0)`
(src/bubble_generation.py lines 54-96). -/
def generate_inclusion_bubbles {G : Type} (K : GeoKernel G) (boundary : G)
    (initial_radius : ℤ) (padding : ℚ) : List G × List (ℚ × ℚ × ℤ) :=
  let s := generationTrace K boundary initial_radius padding
  (s.bubbles, s.data)

/-- `create_minimum_bounding_circle(boundary)` (src/bubble_generation.py
lines 126-144); note that the recorded data radius is `int(radius)` with
`radius = (maxx - minx) / 2` in meters. -/
def create_minimum_bounding_circle {G : Type} (K : GeoKernel G) (boundary : G) :
    G × (ℚ × ℚ × ℤ) :=
  let circle := K.minimumBoundingCircle boundary
  let c := K.centroid circle
  let b := K.bounds circle
  let minx := b.1
  let maxx := b.2.2.1
  let radius := (maxx - minx) / 2
  (circle, (c.1, c.2, pyInt radius))

/-- `generate_exclusion_bubbles(boundary)` (src/bubble_generation.py
lines 147-180). -/
def generate_exclusion_bubbles {G : Type} (K : GeoKernel G) (boundary : G) :
    List G × List (ℚ × ℚ × ℤ) :=
  let exclusion_radius : ℚ := 1000
  let padded := K.buffer boundary 1000
  let polygons := if K.isMultiPolygon padded then K.geoms padded else [padded]
  let kept := polygons.filter (fun p => ! K.isLineString p)
  let step := exclusion_radius / 4
  let ptsOf := fun (p : G) => (pyArange 0 (K.exteriorLength p) step).map (K.interpolate p)
  ((kept.map (fun p => (ptsOf p).map (fun pt => K.pointBuffer pt exclusion_radius))).flatten,
   (kept.map (fun p => (ptsOf p).map (fun pt =>
     (pt.1, pt.2, pyInt (exclusion_radius / 1000))))).flatten)

/-- `calculate_bubbles_with_exclusions(boundary)` (src/bubble_generation.py
lines 183-215): erosion generation with 500 m padding, minimum-bounding-
circle fallback when no bubble was generated, exclusion ring, truncation of
the inclusion lists to `BUBBLE_LIMIT`. -/
def calculate_bubbles_with_exclusions {G : Type} (K : GeoKernel G) (boundary : G) :
    List G × List (ℚ × ℚ × ℤ) × List G × List (ℚ × ℚ × ℤ) :=
  let radius := calculate_radius_upper_bound K boundary
  let gen := generate_inclusion_bubbles K boundary radius 500
  let inc := if gen.1.length = 0 then
      let fb := create_minimum_bounding_circle K boundary
      ([fb.1], [fb.2])
    else gen
  let exc := generate_exclusion_bubbles K boundary
  (inc.1.take BUBBLE_LIMIT, inc.2.take BUBBLE_LIMIT, exc.1, exc.2)

/-- The four coverage percentages returned by `compute_coverage_stats`. -/
structure CoverageStats where
  internal_inclusion : ℚ
  external_inclusion : ℚ
  exclusion : ℚ
  net : ℚ
deriving DecidableEq

/-- `union_all(bubbles) if bubbles else Point(0, 0).buffer(0)`
(src/analysis.py lines 51-52). -/
def bubbleUnion {G : Type} (K : GeoKernel G) (bubbles : List G) : G :=
  if bubbles.isEmpty then K.pointBuffer (0, 0) 0 else K.unionAll bubbles

/-- `compute_coverage_stats(boundary, inclusion_bubbles, exclusion_bubbles)`
(src/analysis.py lines 39-79). -/
def compute_coverage_stats {G : Type} (K : GeoKernel G) (boundary : G)
    (inclusion_bubbles exclusion_bubbles : List G) : CoverageStats :=
  let inclusion_union := bubbleUnion K inclusion_bubbles
  let exclusion_union := bubbleUnion K exclusion_bubbles
  let internal_inclusion_area := K.area (K.inter inclusion_union boundary)
  let external_inclusion_area := K.area (K.diff (K.diff inclusion_union boundary) exclusion_union)
  let exclusion_area := K.area (K.inter exclusion_union boundary)
  let net_area_within_boundary := K.area (K.diff (K.inter inclusion_union boundary) exclusion_union)
  { internal_inclusion := 100 * internal_inclusion_area / K.area boundary
    external_inclusion := 100 * external_inclusion_area / K.area boundary
    exclusion := 100 * exclusion_area / K.area boundary
    net := 100 * net_area_within_boundary / K.area boundary }

/-- The coverage percentages exactly as the specification words them
(spec section 4.5): union of each bubble set (empty geometry when the set
is empty), then the four area quotients
`internal = 100·area(iu ∩ region)/area(region)`,
`external = 100·area((iu − region) − eu)/area(region)`,
`exclusion = 100·area(eu ∩ region)/area(region)`,
`net = 100·area((iu ∩ region) − eu)/area(region)`. -/
def specCoverageStats {G : Type} (K : GeoKernel G) (region : G)
    (inclusions exclusions : List G) : CoverageStats :=
  let iu := bubbleUnion K inclusions
  let eu := bubbleUnion K exclusions
  { internal_inclusion := 100 * K.area (K.inter iu region) / K.area region
    external_inclusion := 100 * K.area (K.diff (K.diff iu region) eu) / K.area region
    exclusion := 100 * K.area (K.inter eu region) / K.area region
    net := 100 * K.area (K.diff (K.inter iu region) eu) / K.area region }

/-- The radius upper bound exactly as the specification words it (spec
section 4.1): the two distinct edge lengths of the minimum rotated
bounding rectangle, the shorter one as `width`, then
`⌊width / 2000⌋ * 1000`. -/
def specRadiusUpperBound {G : Type} (K : GeoKernel G) (boundary : G) : ℤ :=
  let c := K.mrrCorners boundary
  let width := min (K.distance c.1 c.2.1) (K.distance c.2.1 c.2.2)
  ⌊width / 2000⌋ * 1000

/-- The Python exceptions `write_summary_statistics` can raise
(src/analysis.py lines 81-96): `ZeroDivisionError` from
`sum(values) / len(values)` and `ValueError` from `min`/`max` of an empty
sequence. -/
inductive PyErr where
  | zeroDivisionError
  | valueError
deriving DecidableEq

/-- `sum(values) / len(values)`: raises `ZeroDivisionError` on an empty
list. -/
def pyMean (l : List ℚ) : Except PyErr ℚ :=
  if l.length = 0 then .error .zeroDivisionError else .ok (l.sum / (l.length : ℚ))

/-- `np.median(values)`: middle element of the sorted list, or the average
of the two middle elements for even length.  (On an empty list numpy
returns NaN; that case is unreachable here because the mean raises
first, and is modelled as `0`.) -/
def pyMedian (l : List ℚ) : ℚ :=
  let s := l.insertionSort (· ≤ ·)
  if l.length = 0 then 0
  else if l.length % 2 = 1 then s.getD (l.length / 2) 0
  else (s.getD (l.length / 2 - 1) 0 + s.getD (l.length / 2) 0) / 2

/-- Python `min(values)`: raises `ValueError` on an empty sequence. -/
def pyListMin (l : List ℚ) : Except PyErr ℚ :=
  match l with
  | [] => .error .valueError
  | x :: xs => .ok (xs.foldl min x)

/-- Python `max(values)`: raises `ValueError` on an empty sequence. -/
def pyListMax (l : List ℚ) : Except PyErr ℚ :=
  match l with
  | [] => .error .valueError
  | x :: xs => .ok (xs.foldl max x)

/-- `np.std(values)`: population standard deviation,
`sqrt(mean((x - mean)²))`. -/
noncomputable def pyStd (l : List ℚ) : ℝ :=
  let n : ℝ := l.length
  let m : ℝ := (l.map (fun x => (x : ℝ))).sum / n
  Real.sqrt ((l.map (fun x => ((x : ℝ) - m) ^ 2)).sum / n)

/-- The five rows `write_summary_statistics` writes for one statistic
(src/analysis.py lines 91-96), in write order; the first failing
computation aborts the run with its exception, exactly as in Python. -/
noncomputable def statRows (label : String) (values : List ℚ) :
    Except PyErr (List (String × ℝ)) := do
  let m ← pyMean values
  let mn ← pyListMin values
  let mx ← pyListMax values
  .ok [(label ++ "_mean", (m : ℝ)),
       (label ++ "_median", (pyMedian values : ℝ)),
       (label ++ "_min", (mn : ℝ)),
       (label ++ "_max", (mx : ℝ)),
       (label ++ "_sigma", pyStd values)]

/-- `write_summary_statistics(statistics_writer, statistics)`
(src/analysis.py lines 81-96), modelled as the sequence of
`(label, value)` rows it writes (the leading blank row is omitted), or the
first exception it raises. -/
noncomputable def write_summary_statistics (statistics : List CoverageStats) :
    Except PyErr (List (String × ℝ)) := do
  let a ← statRows "internal_inclusion" (statistics.map (·.internal_inclusion))
  let b ← statRows "external_inclusion" (statistics.map (·.external_inclusion))
  let c ← statRows "exclusion" (statistics.map (·.exclusion))
  let d ← statRows "net" (statistics.map (·.net))
  .ok (a ++ b ++ c ++ d)

/-- The area laws of a real polygon-geometry library that the coverage
percentage bounds rely on: intersecting cannot exceed the right operand's
area, subtracting cannot increase area. -/
structure GeoLaws {G : Type} (K : GeoKernel G) : Prop where
  area_inter_le_right : ∀ a b : G, K.area (K.inter a b) ≤ K.area b
  area_diff_le_left : ∀ a b : G, K.area (K.diff a b) ≤ K.area a

/-- A small concrete kernel with one single-part skeleton at radius 2000
(geometry codes: `0` the boundary, `1` the non-empty erosion island at
radius 2000, `2` any empty geometry, `3` a generated circle).  Its region
`0` yields exactly one inclusion bubble at radius 2000 and then stops. -/
def oneBubbleKernel : GeoKernel ℕ where
  buffer := fun _ q => if q = -2030 then 1 else 2
  isEmpty := fun g => decide (g ≠ 1)
  isMultiPolygon := fun _ => false
  isLineString := fun _ => false
  geoms := fun g => [g]
  exteriorLength := fun _ => 2000
  interpolate := fun _ _ => (0, 0)
  pointBuffer := fun _ _ => 3
  contains := fun _ _ => true
  mrrCorners := fun _ => ((0, 0), (0, 0), (0, 0))
  distance := fun _ _ => 0
  area := fun _ => 1
  inter := fun a _ => a
  diff := fun a _ => a
  unionAll := fun _ => 0
  minimumBoundingCircle := fun _ => 0
  centroid := fun _ => (0, 0)
  bounds := fun _ => (0, 0, 0, 0)

/-- A concrete kernel whose erosion island at radius 2000 is a
multi-polygon with 201 parts of perimeter 1990 each (codes: `0` boundary,
`1` the island, `2` empty, `3` a circle, `5` one island part).  The tier
step stays at the radius (the projected count `201 · 1990 / 2000` does not
exceed the limit), yet each part contributes one accepted circle, so a
single tier places 201 bubbles. -/
def overflowKernel : GeoKernel ℕ where
  buffer := fun _ q => if q = -2030 then 1 else 2
  isEmpty := fun g => decide (g ≠ 1)
  isMultiPolygon := fun g => decide (g = 1)
  isLineString := fun _ => false
  geoms := fun _ => List.replicate 201 5
  exteriorLength := fun _ => 1990
  interpolate := fun _ _ => (0, 0)
  pointBuffer := fun _ _ => 3
  contains := fun _ _ => true
  mrrCorners := fun _ => ((0, 0), (0, 0), (0, 0))
  distance := fun _ _ => 0
  area := fun _ => 1
  inter := fun a _ => a
  diff := fun a _ => a
  unionAll := fun _ => 0
  minimumBoundingCircle := fun _ => 0
  centroid := fun _ => (0, 0)
  bounds := fun _ => (0, 0, 0, 0)

/-- A concrete kernel describing a thin region (minimum rotated rectangle
1000 × 500, so the radius upper bound is 0 and erosion places no bubble)
whose minimum bounding circle (code `9`) has radius 5000 m and is not
contained in the 500 m-padded region (code `3`).  The rectangle corners are
axis-aligned, so the displacement sum below equals the Euclidean edge
length on its edges. -/
def thinRegionKernel : GeoKernel ℕ where
  buffer := fun g q => if g = 0 ∧ q = 500 then 3 else g
  isEmpty := fun _ => true
  isMultiPolygon := fun _ => false
  isLineString := fun _ => false
  geoms := fun g => [g]
  exteriorLength := fun _ => 250
  interpolate := fun _ _ => (0, 0)
  pointBuffer := fun _ _ => 4
  contains := fun a b => decide (¬(a = 3 ∧ b = 9))
  mrrCorners := fun _ => ((0, 0), (1000, 0), (1000, 500))
  distance := fun p q => (q.1 - p.1) + (q.2 - p.2)
  area := fun _ => 1
  inter := fun a _ => a
  diff := fun a _ => a
  unionAll := fun _ => 0
  minimumBoundingCircle := fun _ => 9
  centroid := fun _ => (0, 0)
  bounds := fun g => if g = 9 then (-5000, -5000, 5000, 5000) else (0, 0, 0, 0)

/-- A concrete kernel for the 4000 m × 4000 m square scenario of the
specification: the minimum rotated rectangle corners are axis-aligned, and
the displacement sum below equals the Euclidean distance on its
axis-aligned edges. -/
def squareKernel : GeoKernel ℕ where
  buffer := fun g _ => g
  isEmpty := fun _ => true
  isMultiPolygon := fun _ => false
  isLineString := fun _ => false
  geoms := fun g => [g]
  exteriorLength := fun _ => 16000
  interpolate := fun _ _ => (0, 0)
  pointBuffer := fun _ _ => 3
  contains := fun _ _ => true
  mrrCorners := fun _ => ((0, 0), (4000, 0), (4000, 4000))
  distance := fun p q => (q.1 - p.1) + (q.2 - p.2)
  area := fun _ => 16000000
  inter := fun a _ => a
  diff := fun a _ => a
  unionAll := fun _ => 0
  minimumBoundingCircle := fun _ => 0
  centroid := fun _ => (0, 0)
  bounds := fun _ => (0, 0, 0, 0)

/-- A lawful concrete kernel whose geometries are finite sets of unit grid
cells, with area = cardinality and genuine set intersection, difference
and union; it satisfies `GeoLaws`. -/
def gridKernel : GeoKernel (Finset (ℤ × ℤ)) where
  buffer := fun g _ => g
  isEmpty := fun g => decide (g = ∅)
  isMultiPolygon := fun _ => false
  isLineString := fun _ => false
  geoms := fun g => [g]
  exteriorLength := fun _ => 0
  interpolate := fun _ _ => (0, 0)
  pointBuffer := fun _ _ => ∅
  contains := fun a b => decide (b ⊆ a)
  mrrCorners := fun _ => ((0, 0), (0, 0), (0, 0))
  distance := fun _ _ => 0
  area := fun g => (g.card : ℚ)
  inter := fun a b => a ∩ b
  diff := fun a b => a \ b
  unionAll := fun l => l.foldr (· ∪ ·) ∅
  minimumBoundingCircle := fun g => g
  centroid := fun _ => (0, 0)
  bounds := fun _ => (0, 0, 0, 0)

/-- Intersection law for the grid kernel. -/
theorem grid_area_inter (a b : Finset (ℤ × ℤ)) :
    gridKernel.area (gridKernel.inter a b) ≤ gridKernel.area b := by
  show ((a ∩ b).card : ℚ) ≤ (b.card : ℚ)
  exact_mod_cast Finset.card_le_card (Finset.inter_subset_right)

/-- Difference law for the grid kernel. -/
theorem grid_area_diff (a b : Finset (ℤ × ℤ)) :
    gridKernel.area (gridKernel.diff a b) ≤ gridKernel.area a := by
  show ((a \ b).card : ℚ) ≤ (a.card : ℚ)
  exact_mod_cast Finset.card_le_card (Finset.sdiff_subset)

/-- The grid kernel satisfies the area laws. -/
theorem gridKernel_laws : GeoLaws gridKernel :=
  ⟨grid_area_inter, grid_area_diff⟩


/-- Unfolding the loop when the `while` guard fails: the state is returned
unchanged and no iteration is executed. -/
theorem genLoop_stop {G : Type} (K : GeoKernel G) (pd : G) (fuel : ℕ) (r : ℤ)
    (bubbles : List G) (data : List (ℚ × ℚ × ℤ))
    (h : ¬(0 < r ∧ bubbles.length < BUBBLE_LIMIT)) :
    genLoop K pd fuel r bubbles data = ⟨r, bubbles, data, [], 0⟩ := by
  cases fuel <;> simp [genLoop, h]

/-- Unfolding the loop when the `while` guard holds: one tier runs and the
loop continues at the updated radius. -/
theorem genLoop_go {G : Type} (K : GeoKernel G) (pd : G) (fuel : ℕ) (r : ℤ)
    (bubbles : List G) (data : List (ℚ × ℚ × ℤ))
    (h : 0 < r ∧ bubbles.length < BUBBLE_LIMIT) :
    genLoop K pd (fuel + 1) r bubbles data =
      (let t := runTier K pd r bubbles data
       let s := genLoop K pd fuel (nextRadius (decide (0 < t.1.length)) r) t.1 t.2.1
       ⟨s.radius, s.bubbles, s.data, t.2.2 ++ s.stepCalls, s.iters + 1⟩) := by
  simp [genLoop, h]

/-- The loop exits immediately on a non-positive radius or a full list. -/
theorem loopGuard_stop {G : Type} (K : GeoKernel G) (pd : G) (fuel : ℕ) (r : ℤ)
    (bubbles : List G) (data : List (ℚ × ℚ × ℤ))
    (h : r ≤ 0 ∨ BUBBLE_LIMIT ≤ bubbles.length) :
    genLoop K pd fuel r bubbles data = ⟨r, bubbles, data, [], 0⟩ :=
  genLoop_stop K pd fuel r bubbles data (by omega)

/-- Radius field of one loop step. -/
theorem genLoop_go_radius {G : Type} (K : GeoKernel G) (pd : G) (fuel : ℕ) (r : ℤ)
    (bubbles : List G) (data : List (ℚ × ℚ × ℤ)) (h : 0 < r ∧ bubbles.length < BUBBLE_LIMIT) :
    (genLoop K pd (fuel + 1) r bubbles data).radius =
      (genLoop K pd fuel (nextRadius (decide (0 < (runTier K pd r bubbles data).1.length)) r)
        (runTier K pd r bubbles data).1 (runTier K pd r bubbles data).2.1).radius := by
  rw [genLoop_go _ _ _ _ _ _ h]

/-- Bubble field of one loop step. -/
theorem genLoop_go_bubbles {G : Type} (K : GeoKernel G) (pd : G) (fuel : ℕ) (r : ℤ)
    (bubbles : List G) (data : List (ℚ × ℚ × ℤ)) (h : 0 < r ∧ bubbles.length < BUBBLE_LIMIT) :
    (genLoop K pd (fuel + 1) r bubbles data).bubbles =
      (genLoop K pd fuel (nextRadius (decide (0 < (runTier K pd r bubbles data).1.length)) r)
        (runTier K pd r bubbles data).1 (runTier K pd r bubbles data).2.1).bubbles := by
  rw [genLoop_go _ _ _ _ _ _ h]

/-- Step-call log of one loop step. -/
theorem genLoop_go_stepCalls {G : Type} (K : GeoKernel G) (pd : G) (fuel : ℕ) (r : ℤ)
    (bubbles : List G) (data : List (ℚ × ℚ × ℤ)) (h : 0 < r ∧ bubbles.length < BUBBLE_LIMIT) :
    (genLoop K pd (fuel + 1) r bubbles data).stepCalls =
      (runTier K pd r bubbles data).2.2 ++
        (genLoop K pd fuel (nextRadius (decide (0 < (runTier K pd r bubbles data).1.length)) r)
          (runTier K pd r bubbles data).1 (runTier K pd r bubbles data).2.1).stepCalls := by
  rw [genLoop_go _ _ _ _ _ _ h]

/-- Iteration count of one loop step. -/
theorem genLoop_go_iters {G : Type} (K : GeoKernel G) (pd : G) (fuel : ℕ) (r : ℤ)
    (bubbles : List G) (data : List (ℚ × ℚ × ℤ)) (h : 0 < r ∧ bubbles.length < BUBBLE_LIMIT) :
    (genLoop K pd (fuel + 1) r bubbles data).iters =
      (genLoop K pd fuel (nextRadius (decide (0 < (runTier K pd r bubbles data).1.length)) r)
        (runTier K pd r bubbles data).1 (runTier K pd r bubbles data).2.1).iters + 1 := by
  rw [genLoop_go _ _ _ _ _ _ h]

/-- Both radius updates strictly decrease a positive radius. -/
theorem nextRadius_lt (b : Bool) (r : ℤ) (hr : 0 < r) : nextRadius b r < r := by
  cases b with
  | false => simp only [nextRadius, Bool.false_eq_true, if_false]; omega
  | true =>
    simp only [nextRadius, if_true]
    rw [@Int.fdiv_eq_ediv r 1500 (by norm_num)]
    omega

/-- As long as the updated radius stays positive, the measure
`radius.toNat / 500` strictly decreases: the aggressive branch removes at
least a third of a radius of at least 1500, the linear branch removes
exactly 1000. -/
theorem nextRadius_measure (b : Bool) (r : ℤ) (hr : 0 < r)
    (hr2 : 0 < nextRadius b r) : (nextRadius b r).toNat / 500 + 1 ≤ r.toNat / 500 := by
  cases b with
  | false => simp only [nextRadius, Bool.false_eq_true, if_false] at hr2 ⊢; omega
  | true =>
    simp only [nextRadius, if_true] at hr2 ⊢
    rw [@Int.fdiv_eq_ediv r 1500 (by norm_num)] at hr2 ⊢
    omega

/-- The only `bubble_length` value a tier passes to `calculate_step` is the
bubble count at tier entry. -/
theorem runTier_calls {G : Type} (K : GeoKernel G) (pd : G) (r : ℤ) (bubbles : List G)
    (data : List (ℚ × ℚ × ℤ)) (n : ℕ) (hn : n ∈ (runTier K pd r bubbles data).2.2) :
    n = bubbles.length := by
  simp only [runTier] at hn
  by_cases h : K.isEmpty (K.buffer pd (-((r : ℚ) + 30))) = true
  · simp only [h, if_true] at hn
    exact absurd hn (by simp)
  · simp only [h, if_false] at hn
    exact List.mem_singleton.1 hn

/-- Every bubble in a tier's output was already present or passed the
containment filter against the padded boundary. -/
theorem runTier_bubbles {G : Type} (K : GeoKernel G) (pd : G) (r : ℤ) (bubbles : List G)
    (data : List (ℚ × ℚ × ℤ)) (g : G) (hg : g ∈ (runTier K pd r bubbles data).1) :
    g ∈ bubbles ∨ K.contains pd g = true := by
  simp only [runTier] at hg
  by_cases h : K.isEmpty (K.buffer pd (-((r : ℚ) + 30))) = true
  · simp only [h, if_true] at hg
    exact Or.inl hg
  · simp only [h, if_false] at hg
    rcases List.mem_append.1 hg with hl | hr
    · exact Or.inl hl
    · rcases List.mem_map.1 hr with ⟨pt, hpt, rfl⟩
      exact Or.inr (List.mem_filter.1 hpt).2

/-- Every `bubble_length` ever passed to `calculate_step` by the loop is
strictly below `BUBBLE_LIMIT` (the guard is checked at every tier entry). -/
theorem genLoop_stepCalls_lt {G : Type} (K : GeoKernel G) (pd : G) :
    ∀ (fuel : ℕ) (r : ℤ) (bubbles : List G) (data : List (ℚ × ℚ × ℤ)) (n : ℕ),
      n ∈ (genLoop K pd fuel r bubbles data).stepCalls → n < BUBBLE_LIMIT := by
  intro fuel
  induction fuel with
  | zero => intro r bubbles data n hn; simp [genLoop] at hn
  | succ fuel ih =>
    intro r bubbles data n hn
    by_cases hg : 0 < r ∧ bubbles.length < BUBBLE_LIMIT
    · rw [genLoop_go_stepCalls _ _ _ _ _ _ hg] at hn
      simp only [List.mem_append] at hn
      rcases hn with h1 | h2
      · rw [runTier_calls _ _ _ _ _ _ h1]
        exact hg.2
      · exact ih _ _ _ _ h2
    · rw [genLoop_stop _ _ _ _ _ _ hg] at hn
      simp at hn

/-- Containment invariant of the loop: if all initial bubbles are contained
in the padded boundary, so are all bubbles of the final state. -/
theorem genLoop_contained {G : Type} (K : GeoKernel G) (pd : G) :
    ∀ (fuel : ℕ) (r : ℤ) (bubbles : List G) (data : List (ℚ × ℚ × ℤ)),
      (∀ g ∈ bubbles, K.contains pd g = true) →
      ∀ g ∈ (genLoop K pd fuel r bubbles data).bubbles, K.contains pd g = true := by
  intro fuel
  induction fuel with
  | zero =>
    intro r bubbles data hb g hg
    simp only [genLoop] at hg
    exact hb g hg
  | succ fuel ih =>
    intro r bubbles data hb g hg
    by_cases hguard : 0 < r ∧ bubbles.length < BUBBLE_LIMIT
    · rw [genLoop_go_bubbles _ _ _ _ _ _ hguard] at hg
      refine ih _ _ _ ?_ g hg
      intro g2 hg2
      rcases runTier_bubbles K pd r bubbles data g2 hg2 with h | h
      · exact hb g2 h
      · exact h
    · rw [genLoop_stop _ _ _ _ _ _ hguard] at hg
      exact hb g hg

/-- Fuel adequacy: with fuel at least `radius.toNat / 500 + 1` the loop
reaches its natural exit condition (non-positive radius or full bubble
list); in particular the fuel `initial_radius.toNat + 1` used by
`generationTrace` always suffices. -/
theorem genLoop_done {G : Type} (K : GeoKernel G) (pd : G) :
    ∀ (fuel : ℕ) (r : ℤ) (bubbles : List G) (data : List (ℚ × ℚ × ℤ)),
      r.toNat / 500 + 1 ≤ fuel →
      (genLoop K pd fuel r bubbles data).radius ≤ 0 ∨
        BUBBLE_LIMIT ≤ (genLoop K pd fuel r bubbles data).bubbles.length := by
  intro fuel
  induction fuel with
  | zero => intro r bubbles data h; omega
  | succ fuel ih =>
    intro r bubbles data h
    by_cases hg : 0 < r ∧ bubbles.length < BUBBLE_LIMIT
    · rw [genLoop_go_radius _ _ _ _ _ _ hg, genLoop_go_bubbles _ _ _ _ _ _ hg]
      by_cases hpos : 0 < nextRadius (decide (0 < (runTier K pd r bubbles data).1.length)) r
      · have hmeas := nextRadius_measure _ r hg.1 hpos
        exact ih _ _ _ (by omega)
      · rw [loopGuard_stop _ _ _ _ _ _ (Or.inl (by omega))]
        exact Or.inl (Int.not_lt.mp hpos)
    · rw [genLoop_stop _ _ _ _ _ _ hg]
      simp only [BUBBLE_LIMIT] at hg ⊢
      omega

/-- The loop executes at most `radius.toNat / 500 + 1` iterations,
whatever the fuel and whatever the kernel does. -/
theorem genLoop_iters_le {G : Type} (K : GeoKernel G) (pd : G) :
    ∀ (fuel : ℕ) (r : ℤ) (bubbles : List G) (data : List (ℚ × ℚ × ℤ)),
      (genLoop K pd fuel r bubbles data).iters ≤ r.toNat / 500 + 1 := by
  intro fuel
  induction fuel with
  | zero => intro r bubbles data; simp [genLoop]
  | succ fuel ih =>
    intro r bubbles data
    by_cases hg : 0 < r ∧ bubbles.length < BUBBLE_LIMIT
    · rw [genLoop_go_iters _ _ _ _ _ _ hg]
      by_cases hpos : 0 < nextRadius (decide (0 < (runTier K pd r bubbles data).1.length)) r
      · have hmeas := nextRadius_measure _ r hg.1 hpos
        have hrec := ih (nextRadius (decide (0 < (runTier K pd r bubbles data).1.length)) r)
          (runTier K pd r bubbles data).1 (runTier K pd r bubbles data).2.1
        omega
      · rw [loopGuard_stop _ _ _ _ _ _ (Or.inl (by omega))]
        simp
    · rw [genLoop_stop _ _ _ _ _ _ hg]
      simp

/-- The first tier of the one-bubble kernel run: a single skeleton part of
perimeter 2000 at radius 2000 yields one accepted bubble. -/
theorem oneBubble_runTier1 :
    runTier oneBubbleKernel 0 2000 [] [] = ([3], [(0, 0, 2)], [0]) := by
  norm_num [runTier, oneBubbleKernel, calculate_step, pyArange, pyInt, BUBBLE_LIMIT,
    List.range_succ]

/-- The second tier of the one-bubble kernel run: the erosion island at
radius 1000 is empty, so the tier changes nothing. -/
theorem oneBubble_runTier2 :
    runTier oneBubbleKernel 0 1000 [3] [(0, 0, 2)] = ([3], [(0, 0, 2)], []) := by
  norm_num [runTier, oneBubbleKernel]

/-- Full evaluation of the generation loop on the one-bubble kernel:
radius 2000 places one bubble, radius drops to 1000 (empty tier), then to
0, and the loop exits. -/
theorem oneBubble_trace :
    generationTrace oneBubbleKernel 0 2000 0 = ⟨0, [3], [(0, 0, 2)], [0], 2⟩ := by
  have h3 : genLoop oneBubbleKernel 0 1999 0 [3] [(0, 0, 2)] = ⟨0, [3], [(0, 0, 2)], [], 0⟩ :=
    genLoop_stop _ _ _ _ _ _ (by norm_num)
  have h2 : genLoop oneBubbleKernel 0 (1999 + 1) 1000 [3] [(0, 0, 2)] =
      ⟨0, [3], [(0, 0, 2)], [], 1⟩ := by
    rw [genLoop_go _ _ _ _ _ _ (by norm_num [BUBBLE_LIMIT])]
    simp only [oneBubble_runTier2]
    norm_num [nextRadius, show Int.fdiv 1000 1500 = 0 from rfl, h3]
  have h1 : genLoop oneBubbleKernel 0 (2000 + 1) 2000 [] [] =
      ⟨0, [3], [(0, 0, 2)], [0], 2⟩ := by
    rw [genLoop_go _ _ _ _ _ _ (by norm_num [BUBBLE_LIMIT])]
    simp only [oneBubble_runTier1]
    norm_num [nextRadius, show Int.fdiv 2000 1500 = 1 from rfl, h2]
  rw [generationTrace]
  norm_num [paddedOf]
  exact h1

/-- The generator output on the one-bubble kernel. -/
theorem oneBubble_gen :
    generate_inclusion_bubbles oneBubbleKernel 0 2000 0 = ([3], [(0, 0, 2)]) := by
  simp only [generate_inclusion_bubbles, oneBubble_trace]

/-- Flattening `n` copies of a singleton list gives `n` copies of its
element. -/
theorem flatten_replicate_singleton {α : Type} (n : ℕ) (a : α) :
    (List.replicate n [a]).flatten = List.replicate n a := by
  induction n with
  | zero => simp
  | succ k ih => simp [List.replicate_succ, ih]

/-- The single tier of the overflow kernel: 201 skeleton parts of perimeter
1990 at radius 2000, projected count `201·1990/2000 < 200`, so the step
stays at the radius and every part contributes one accepted bubble —
201 bubbles in one tier. -/
theorem overflow_runTier :
    runTier overflowKernel 0 2000 [] [] =
      (List.replicate 201 3, List.replicate 201 (0, 0, 2), [0]) := by
  have hceil : (⌈(199 : ℚ) / 200⌉).toNat = 1 := by
    rw [show ⌈(199 : ℚ) / 200⌉ = 1 by rw [Int.ceil_eq_iff] <;> norm_num]
    rfl
  norm_num [runTier, overflowKernel, calculate_step, pyArange, pyInt, BUBBLE_LIMIT,
    List.sum_replicate, nsmul_eq_mul, List.map_replicate, hceil, List.range_succ,
    flatten_replicate_singleton]

/-- Full evaluation of the generation loop on the overflow kernel: one
tier accumulates 201 bubbles and the loop stops at the next guard check. -/
theorem overflow_trace :
    generationTrace overflowKernel 0 2000 0 =
      ⟨1000, List.replicate 201 3, List.replicate 201 (0, 0, 2), [0], 1⟩ := by
  have h1 : genLoop overflowKernel 0 (2000 + 1) 2000 [] [] =
      ⟨1000, List.replicate 201 3, List.replicate 201 (0, 0, 2), [0], 1⟩ := by
    rw [genLoop_go _ _ _ _ _ _ (by norm_num [BUBBLE_LIMIT])]
    simp only [overflow_runTier]
    norm_num [nextRadius, show Int.fdiv 2000 1500 = 1 from rfl,
      genLoop_stop overflowKernel 0 2000 1000 (List.replicate 201 3)
        (List.replicate 201 (0, 0, 2)) (by norm_num [BUBBLE_LIMIT])]
  rw [generationTrace]
  norm_num [paddedOf]
  rw [show Int.toNat 2000 + 1 = 2000 + 1 from rfl, h1]

/-- The thin-region kernel's minimum rotated rectangle is 1000 × 500, so
the estimated radius bound is 0. -/
theorem thin_radius_upper_bound : calculate_radius_upper_bound thinRegionKernel 0 = 0 := by
  have hfloor : ⌊(1 : ℚ) / 4⌋ = 0 := by
    rw [Int.floor_eq_iff] <;> norm_num
  norm_num [calculate_radius_upper_bound, thinRegionKernel, pyInt, pyFloorDiv, hfloor]

/-- With a zero initial radius the generator loop never runs. -/
theorem thin_gen : generate_inclusion_bubbles thinRegionKernel 0 0 500 = ([], []) := by
  have hstop : genLoop thinRegionKernel (paddedOf thinRegionKernel 0 500) 1 0 [] [] =
      ⟨0, [], [], [], 0⟩ :=
    genLoop_stop _ _ _ _ _ _ (by norm_num)
  rw [generate_inclusion_bubbles, generationTrace]
  norm_num [hstop]

/-- The thin-region fallback circle has bounds of width 10000, so the
recorded data radius is `int(5000)` — 5000, in meters. -/
theorem thin_fallback :
    create_minimum_bounding_circle thinRegionKernel 0 = (9, (0, 0, 5000)) := by
  have hfloor5000 : ⌊(5000 : ℚ)⌋ = 5000 := by
    rw [Int.floor_eq_iff] <;> norm_num
  norm_num [create_minimum_bounding_circle, thinRegionKernel, pyInt, hfloor5000]

/-- Exclusion ring of the thin-region kernel: one part, one step point. -/
theorem thin_exc : generate_exclusion_bubbles thinRegionKernel 0 = ([4], [(0, 0, 1)]) := by
  norm_num [generate_exclusion_bubbles, thinRegionKernel, pyArange, pyInt, List.range_succ]

/-- Full pipeline on the thin-region kernel: the erosion generator places
zero bubbles, so the minimum-bounding-circle fallback provides the single
inclusion bubble, whose data records its radius in meters. -/
theorem thin_pipeline :
    calculate_bubbles_with_exclusions thinRegionKernel 0 =
      ([9], [(0, 0, 5000)], [4], [(0, 0, 1)]) := by
  rw [calculate_bubbles_with_exclusions]
  simp only [thin_radius_upper_bound, thin_gen, thin_fallback, thin_exc]
  norm_num [BUBBLE_LIMIT]

/-- The fallback circle of the thin-region kernel is not contained in the
500 m-padded region. -/
theorem thin_contains_false :
    thinRegionKernel.contains (thinRegionKernel.buffer 0 500) 9 = false := by
  norm_num [thinRegionKernel]

/-- The 4000 m × 4000 m square's radius upper bound evaluates to 2000. -/
theorem square_radius_upper_bound : calculate_radius_upper_bound squareKernel 0 = 2000 := by
  have hfloor : ⌊(2 : ℚ)⌋ = 2 := by
    rw [Int.floor_eq_iff] <;> norm_num
  norm_num [calculate_radius_upper_bound, squareKernel, pyInt, pyFloorDiv, hfloor]

/-- `pyInt` is the identity on integers. -/
theorem pyInt_intCast (n : ℤ) : pyInt (n : ℚ) = n := by
  unfold pyInt
  by_cases h : (0 : ℚ) ≤ (n : ℚ)
  · simp [h, Int.floor_intCast]
  · simp [h, Int.ceil_intCast]

/-- Mean of a one-element list. -/
theorem pyMean_singleton (x : ℚ) : pyMean [x] = .ok x := by
  simp [pyMean]

/-- Median of a one-element list. -/
theorem pyMedian_singleton (x : ℚ) : pyMedian [x] = x := by
  unfold pyMedian; simp

/-- Minimum of a one-element list. -/
theorem pyListMin_singleton (x : ℚ) : pyListMin [x] = .ok x := rfl

/-- Maximum of a one-element list. -/
theorem pyListMax_singleton (x : ℚ) : pyListMax [x] = .ok x := rfl

/-- Population standard deviation of a one-element list is zero. -/
theorem pyStd_singleton (x : ℚ) : pyStd [x] = 0 := by
  simp [pyStd]

/-- The five summary rows of one statistic over a single region. -/
theorem statRows_singleton (label : String) (x : ℚ) :
    statRows label [x] = .ok [(label ++ "_mean", (x : ℝ)),
      (label ++ "_median", (x : ℝ)), (label ++ "_min", (x : ℝ)),
      (label ++ "_max", (x : ℝ)), (label ++ "_sigma", 0)] := by
  simp only [statRows, pyMean_singleton, pyMedian_singleton, pyListMin_singleton,
    pyListMax_singleton, pyStd_singleton]
  rfl

/-- C1: for every boundary (over any geometry kernel),
`calculate_bubbles_with_exclusions` returns an inclusion-bubble list of
length at least 1 — the minimum-bounding-circle fallback fires whenever
the erosion generator places zero bubbles — and at most the global limit
of 200. -/
theorem inclusion_count_bounds {G : Type} (K : GeoKernel G) (boundary : G) :
    1 ≤ (calculate_bubbles_with_exclusions K boundary).1.length ∧
      (calculate_bubbles_with_exclusions K boundary).1.length ≤ BUBBLE_LIMIT := by
  simp only [calculate_bubbles_with_exclusions]
  by_cases h : (generate_inclusion_bubbles K boundary (calculate_radius_upper_bound K boundary)
      500).1.length = 0
  · simp only [h, if_true]
    simp [BUBBLE_LIMIT]
  · simp only [h, if_false]
    simp only [List.length_take, BUBBLE_LIMIT]
    omega

/-- C2 (counterexample): the claim "every inclusion bubble in the returned
list, including the fallback, satisfies `padded_region.contains(bubble)`"
fails: on the thin-region kernel the returned inclusion list is exactly
the fallback minimum bounding circle, and the 500 m-padded region does not
contain it (the fallback encloses the region instead and is never
containment-checked). -/
theorem fallback_bubble_not_contained :
    (calculate_bubbles_with_exclusions thinRegionKernel 0).1 = [9] ∧
      thinRegionKernel.contains (thinRegionKernel.buffer 0 500) 9 = false := by
  constructor
  · rw [thin_pipeline]
  · exact thin_contains_false

/-- C2 (amended): every inclusion bubble emitted by the erosion generator
`generate_inclusion_bubbles` is contained in the (possibly padded) region —
the containment filter guards every acceptance; only the fallback
minimum-bounding-circle bubble is exempt from this check. -/
theorem erosion_bubbles_contained {G : Type} (K : GeoKernel G) (boundary : G)
    (initial_radius : ℤ) (padding : ℚ) (g : G)
    (hg : g ∈ (generate_inclusion_bubbles K boundary initial_radius padding).1) :
    K.contains (paddedOf K boundary padding) g = true :=
  genLoop_contained K (paddedOf K boundary padding) (initial_radius.toNat + 1) initial_radius
    [] [] (fun g2 hg2 => absurd hg2 (List.not_mem_nil g2)) g hg

/-- C2 (witness): the one-bubble kernel run emits bubble `3`, and it is
contained in the padded region. -/
theorem erosion_bubbles_contained_witness :
    (3 : ℕ) ∈ (generate_inclusion_bubbles oneBubbleKernel 0 2000 0).1 ∧
      oneBubbleKernel.contains (paddedOf oneBubbleKernel 0 0) 3 = true := by
  have hm : (3 : ℕ) ∈ (generate_inclusion_bubbles oneBubbleKernel 0 2000 0).1 := by
    rw [oneBubble_gen]
    simp
  exact ⟨hm, erosion_bubbles_contained oneBubbleKernel 0 2000 0 3 hm⟩

/-- C3: `compute_coverage_stats` returns exactly the four percentages of
the specification — internal, external, exclusion and net coverage — each
computed as an area quotient over the *unioned* bubble geometries (never a
sum of per-circle areas). -/
theorem coverage_stats_match_spec {G : Type} (K : GeoKernel G) (boundary : G)
    (inclusion_bubbles exclusion_bubbles : List G) :
    compute_coverage_stats K boundary inclusion_bubbles exclusion_bubbles =
      specCoverageStats K boundary inclusion_bubbles exclusion_bubbles := rfl

/-- C4 (counterexample): the claim "the accumulated bubble count never
exceeds the global limit at any point; generation halts immediately
mid-tier once the limit is reached" fails: on the overflow kernel a single
radius tier, entered with 0 bubbles, accumulates 201 bubbles — one more
than the limit of 200 — because the guard is only checked between tiers. -/
theorem count_exceeds_limit_mid_tier :
    (generationTrace overflowKernel 0 2000 0).bubbles.length = 201 ∧ BUBBLE_LIMIT = 200 := by
  constructor
  · rw [overflow_trace]
    simp only [List.length_replicate]
  · rfl

/-- C4 (amended): the returned inclusion lists never exceed the global
limit (they are truncated to it), and the `while` loop halts at the next
tier boundary once the count has reached the limit; within a tier,
however, the accumulated count may transiently exceed the limit. -/
theorem limit_enforced_at_tier_boundaries :
    (∀ (G : Type) (K : GeoKernel G) (boundary : G),
      (calculate_bubbles_with_exclusions K boundary).1.length ≤ BUBBLE_LIMIT ∧
        (calculate_bubbles_with_exclusions K boundary).2.1.length ≤ BUBBLE_LIMIT) ∧
    (∀ (G : Type) (K : GeoKernel G) (pd : G) (fuel : ℕ) (r : ℤ) (bubbles : List G)
      (data : List (ℚ × ℚ × ℤ)), BUBBLE_LIMIT ≤ bubbles.length →
      (genLoop K pd fuel r bubbles data).iters = 0) := by
  constructor
  · intro G K boundary
    simp only [calculate_bubbles_with_exclusions]
    exact ⟨List.length_take_le _ _, List.length_take_le _ _⟩
  · intro G K pd fuel r bubbles data h
    rw [loopGuard_stop _ _ _ _ _ _ (Or.inr h)]

/-- C4 (witness): the truncation bound at a concrete kernel, and the loop
executing zero iterations when entered with a full bubble list. -/
theorem limit_enforced_witness :
    ((calculate_bubbles_with_exclusions oneBubbleKernel 0).1.length ≤ BUBBLE_LIMIT ∧
      (calculate_bubbles_with_exclusions oneBubbleKernel 0).2.1.length ≤ BUBBLE_LIMIT) ∧
    (genLoop oneBubbleKernel 0 7 1000 (List.replicate 200 3) []).iters = 0 :=
  ⟨limit_enforced_at_tier_boundaries.1 ℕ oneBubbleKernel 0,
   limit_enforced_at_tier_boundaries.2 ℕ oneBubbleKernel 0 7 1000 (List.replicate 200 3) []
     (by rw [List.length_replicate, BUBBLE_LIMIT])⟩

/-- C5: the claim "every recorded inclusion radius equals
`floor(radius_m / 1000)`" is broken by the fallback path in the code:
`create_minimum_bounding_circle` records `int(radius)` with the radius in
meters.  On the thin-region kernel the fallback circle has radius 5000 m,
the recorded data field is 5000, yet `floor(5000 / 1000) = 5`. -/
theorem fallback_radius_recorded_in_meters :
    (calculate_bubbles_with_exclusions thinRegionKernel 0).2.1 = [(0, 0, 5000)] ∧
      ⌊(5000 : ℚ) / 1000⌋ = 5 := by
  constructor
  · rw [thin_pipeline]
  · have h : (5000 : ℚ) / 1000 = ((5 : ℤ) : ℚ) := by norm_num
    rw [h, Int.floor_intCast]

/-- C6: the radius strictly decreases on every loop iteration
(`(radius // 1500) * 1000` once a bubble exists, `radius - 1000`
otherwise), so the loop reaches its exit condition, and the number of
iterations is bounded by `2 * (initial_radius / 1000) + 2` — proportional
to `initial_radius / 1000`. -/
theorem radius_descent_strict_and_bounded :
    (∀ (b : Bool) (r : ℤ), 0 < r → nextRadius b r < r) ∧
    (∀ (G : Type) (K : GeoKernel G) (pd : G) (fuel : ℕ) (r : ℤ) (bubbles : List G)
      (data : List (ℚ × ℚ × ℤ)), r.toNat / 500 + 1 ≤ fuel →
      (genLoop K pd fuel r bubbles data).radius ≤ 0 ∨
        BUBBLE_LIMIT ≤ (genLoop K pd fuel r bubbles data).bubbles.length) ∧
    (∀ (G : Type) (K : GeoKernel G) (pd : G) (fuel : ℕ) (r : ℤ) (bubbles : List G)
      (data : List (ℚ × ℚ × ℤ)),
      (genLoop K pd fuel r bubbles data).iters ≤ 2 * (r.toNat / 1000) + 2) :=
  ⟨nextRadius_lt,
   fun _ K pd fuel r bubbles data h => genLoop_done K pd fuel r bubbles data h,
   fun _ K pd fuel r bubbles data =>
     le_trans (genLoop_iters_le K pd fuel r bubbles data) (by omega)⟩

/-- C6 (witness): the strict decrease at radius 2000 in both branches, and
the exit condition and iteration bound on a concrete finished run. -/
theorem radius_descent_witness :
    (nextRadius true 2000 < 2000 ∧ nextRadius false 2000 < 2000) ∧
    ((genLoop oneBubbleKernel 0 1 0 [] []).radius ≤ 0 ∨
      BUBBLE_LIMIT ≤ (genLoop oneBubbleKernel 0 1 0 [] []).bubbles.length) ∧
    (genLoop oneBubbleKernel 0 1 0 [] []).iters ≤ 2 * ((0 : ℤ).toNat / 1000) + 2 :=
  ⟨⟨radius_descent_strict_and_bounded.1 true 2000 (by norm_num),
    radius_descent_strict_and_bounded.1 false 2000 (by norm_num)⟩,
   radius_descent_strict_and_bounded.2.1 ℕ oneBubbleKernel 0 1 0 [] [] (by norm_num),
   radius_descent_strict_and_bounded.2.2 ℕ oneBubbleKernel 0 1 0 [] []⟩

/-- C7: for every kernel satisfying the area laws and every positive-area
region, `internal_inclusion ≤ 100`, `exclusion ≤ 100` and
`net ≤ internal_inclusion`. -/
theorem coverage_percentages_bounded {G : Type} (K : GeoKernel G) (hK : GeoLaws K)
    (boundary : G) (incs excs : List G) (hpos : 0 < K.area boundary) :
    (compute_coverage_stats K boundary incs excs).internal_inclusion ≤ 100 ∧
      (compute_coverage_stats K boundary incs excs).exclusion ≤ 100 ∧
      (compute_coverage_stats K boundary incs excs).net ≤
        (compute_coverage_stats K boundary incs excs).internal_inclusion := by
  simp only [compute_coverage_stats]
  refine ⟨?_, ?_, ?_⟩
  · rw [div_le_iff hpos]
    have := hK.area_inter_le_right (bubbleUnion K incs) boundary
    nlinarith
  · rw [div_le_iff hpos]
    have := hK.area_inter_le_right (bubbleUnion K excs) boundary
    nlinarith
  · have hd := hK.area_diff_le_left (K.inter (bubbleUnion K incs) boundary) (bubbleUnion K excs)
    exact div_le_div_of_nonneg_right (by nlinarith) hpos.le

/-- C7 (witness): the bounds hold at the lawful grid kernel on a concrete
one-cell region. -/
theorem coverage_percentages_bounded_witness :
    (compute_coverage_stats gridKernel {(0, 0)} [] []).internal_inclusion ≤ 100 ∧
      (compute_coverage_stats gridKernel {(0, 0)} [] []).exclusion ≤ 100 ∧
      (compute_coverage_stats gridKernel {(0, 0)} [] []).net ≤
        (compute_coverage_stats gridKernel {(0, 0)} [] []).internal_inclusion :=
  coverage_percentages_bounded gridKernel gridKernel_laws {(0, 0)} [] []
    (by norm_num [gridKernel])

/-- C8 (counterexample): the claim "the aggregate reducer rejects or skips
an empty sequence with an explicit no-data signal rather than crashing
with a division by zero" fails: on the empty list
`write_summary_statistics` raises `ZeroDivisionError` from
`sum(values) / len(values)`. -/
theorem summary_empty_zero_division :
    write_summary_statistics [] = Except.error PyErr.zeroDivisionError := rfl

/-- C8 (amended): given a single region the reducer returns all twenty
rows without crashing and every standard-deviation row is 0; given an
empty sequence it raises `ZeroDivisionError` instead of an explicit
no-data signal. -/
theorem summary_single_region_ok :
    (∀ s : CoverageStats, write_summary_statistics [s] = .ok
      [("internal_inclusion_mean", (s.internal_inclusion : ℝ)),
       ("internal_inclusion_median", (s.internal_inclusion : ℝ)),
       ("internal_inclusion_min", (s.internal_inclusion : ℝ)),
       ("internal_inclusion_max", (s.internal_inclusion : ℝ)),
       ("internal_inclusion_sigma", 0),
       ("external_inclusion_mean", (s.external_inclusion : ℝ)),
       ("external_inclusion_median", (s.external_inclusion : ℝ)),
       ("external_inclusion_min", (s.external_inclusion : ℝ)),
       ("external_inclusion_max", (s.external_inclusion : ℝ)),
       ("external_inclusion_sigma", 0),
       ("exclusion_mean", (s.exclusion : ℝ)),
       ("exclusion_median", (s.exclusion : ℝ)),
       ("exclusion_min", (s.exclusion : ℝ)),
       ("exclusion_max", (s.exclusion : ℝ)),
       ("exclusion_sigma", 0),
       ("net_mean", (s.net : ℝ)),
       ("net_median", (s.net : ℝ)),
       ("net_min", (s.net : ℝ)),
       ("net_max", (s.net : ℝ)),
       ("net_sigma", 0)]) ∧
    write_summary_statistics [] = Except.error PyErr.zeroDivisionError := by
  constructor
  · intro s
    simp only [write_summary_statistics, List.map_cons, List.map_nil, statRows_singleton]
    rfl
  · rfl

/-- C9: `calculate_radius_upper_bound` computes exactly the
specification's formula — `⌊width / 2000⌋ * 1000` for the shorter of the
two distinct edge lengths of the minimum rotated bounding rectangle — and
on a 4000 m × 4000 m square it returns 2000. -/
theorem radius_upper_bound_matches_spec :
    (∀ (G : Type) (K : GeoKernel G) (boundary : G),
      calculate_radius_upper_bound K boundary = specRadiusUpperBound K boundary) ∧
    calculate_radius_upper_bound squareKernel 0 = 2000 := by
  constructor
  · intro G K boundary
    simp only [calculate_radius_upper_bound, specRadiusUpperBound, pyFloorDiv]
    rw [show ((⌊(min (K.distance (K.mrrCorners boundary).1 (K.mrrCorners boundary).2.1)
        (K.distance (K.mrrCorners boundary).2.1 (K.mrrCorners boundary).2.2)) / 2000⌋ : ℤ) : ℚ)
        * 1000
        = ((⌊(min (K.distance (K.mrrCorners boundary).1 (K.mrrCorners boundary).2.1)
        (K.distance (K.mrrCorners boundary).2.1 (K.mrrCorners boundary).2.2)) / 2000⌋ * 1000 : ℤ)
        : ℚ) by push_cast; ring]
    rw [pyInt_intCast]
  · exact square_radius_upper_bound

/-- C10: every `bubble_length` with which the generation loop invokes
`calculate_step` is strictly below `BUBBLE_LIMIT` (the while-guard is
checked at every tier entry), so the divisor `BUBBLE_LIMIT − bubble_length`
of the last-iteration branch is at least 1 and the division cannot be by
zero. -/
theorem step_divisor_positive {G : Type} (K : GeoKernel G) (boundary : G)
    (initial_radius : ℤ) (padding : ℚ) (n : ℕ)
    (hn : n ∈ (generationTrace K boundary initial_radius padding).stepCalls) :
    n < BUBBLE_LIMIT ∧ 1 ≤ (BUBBLE_LIMIT : ℚ) - (n : ℚ) := by
  have h : n < BUBBLE_LIMIT := genLoop_stepCalls_lt K (paddedOf K boundary padding)
    (initial_radius.toNat + 1) initial_radius [] [] n hn
  refine ⟨h, ?_⟩
  rw [le_sub_iff_add_le]
  have h199 : n + 1 ≤ 200 := by
    simp only [BUBBLE_LIMIT] at h
    omega
  calc (1 : ℚ) + (n : ℚ) = ((1 + n : ℕ) : ℚ) := by push_cast; ring
    _ ≤ ((200 : ℕ) : ℚ) := by exact_mod_cast (by omega : 1 + n ≤ 200)
    _ = (BUBBLE_LIMIT : ℚ) := by norm_num [BUBBLE_LIMIT]

/-- C10 (witness): the one-bubble kernel run calls `calculate_step` once,
with `bubble_length = 0`, and the divisor is positive there. -/
theorem step_divisor_positive_witness :
    (0 : ℕ) ∈ (generationTrace oneBubbleKernel 0 2000 0).stepCalls ∧
      (0 < BUBBLE_LIMIT ∧ 1 ≤ (BUBBLE_LIMIT : ℚ) - ((0 : ℕ) : ℚ)) := by
  have hm : (0 : ℕ) ∈ (generationTrace oneBubbleKernel 0 2000 0).stepCalls := by
    rw [oneBubble_trace]
    simp
  have h := step_divisor_positive oneBubbleKernel 0 2000 0 0 hm
  exact ⟨hm, h.1, h.2⟩
